import Mathlib

/-!
A verification development for the OauthDemo repository: a shallow
embedding of its token issuance/verification subsystem, its CSRF state
validation, its user upsert services, and the QQ openid response parser,
together with theorems settling the specification claims.

Machine integers are modelled as `Int`/`Nat`; Python dictionaries as
insertion-ordered association lists; JWTs as an idealized signed record
(signature verification succeeds exactly when key and algorithm match,
i.e. HMAC is treated as collision-free); raised exceptions as `Except`
errors, with the pre-exception state returned unchanged.
-/

namespace OauthDemo

/-- Generic Python-dict lookup on an insertion-ordered association list. -/
def dictGet {α β : Type} [DecidableEq α] : List (α × β) → α → Option β
  | [], _ => none
  | (k, v) :: rest, key => if k = key then some v else dictGet rest key

/-- Generic Python-dict assignment `d[key] = val`: replaces the value at an
existing key in place, otherwise appends the new pair at the end. -/
def dictSet {α β : Type} [DecidableEq α] : List (α × β) → α → β → List (α × β)
  | [], key, val => [(key, val)]
  | (k, v) :: rest, key, val =>
    if k = key then (key, val) :: rest else (k, v) :: dictSet rest key val

/-- Default configuration from `config/mock_config.py` and
`config/providers.py`, with no environment-variable overrides set. -/
def SECRET_KEY : String := "YOUR_SECRET_KEY_SHOULD_BE_COMPLEX_AND_SECRET"

def ALGORITHM : String := "HS256"

def ACCESS_TOKEN_EXPIRE_MINUTES : Nat := 15

def REFRESH_TOKEN_EXPIRE_MINUTES : Nat := 60 * 24 * 7

def SERVICE_CLIENT_ID : String := "my-trusted-service"

def SERVICE_CLIENT_SECRET : String := "super-secret-service-key"

def SERVICE_ACCESS_TOKEN_EXPIRE_MINUTES : Nat := 15

/-- `config/providers.py` default: with no environment variables set,
`os.getenv("QQ_JWT_SECRET_KEY", os.getenv("SECRET_KEY", ...))` falls back
to the literal default, which differs from `SECRET_KEY`. -/
def QQ_JWT_SECRET_KEY : String := "a_different_secret_for_qq_jwt"

def QQ_JWT_ALGORITHM : String := "HS256"

def QQ_ACCESS_TOKEN_EXPIRE_MINUTES : Nat := 30

def QQ_REFRESH_TOKEN_EXPIRE_DAYS : Nat := 7

/-- The claim payload of a JWT: the `sub` and `scopes` entries of the data
dict (absent entries are `none`) plus the `exp` timestamp (seconds). -/
structure JwtClaims where
  sub : Option String
  scopes : Option (List String)
  exp : Nat
deriving DecidableEq

/-- The data dict passed to the token creators, before `exp` is added. -/
structure JwtData where
  sub : Option String
  scopes : Option (List String)
deriving DecidableEq

/-- Idealized signed token: payload plus the signing key and algorithm the
signature commits to (HMAC is treated as collision-free). -/
structure Jwt where
  claims : JwtClaims
  key : String
  alg : String
deriving DecidableEq

inductive JwtError where
  | signatureInvalid
  | expired
deriving DecidableEq

/-- Model of `jose.jwt.encode(payload, key, algorithm)`. -/
def jwtEncode (claims : JwtClaims) (key alg : String) : Jwt :=
  ⟨claims, key, alg⟩

/-- Model of `jose.jwt.decode(token, key, algorithms=[alg])` at time `now`:
signature verification first (key and algorithm must match), then the
`exp` claim check (jose rejects when `exp < now`). -/
def jwtDecode (t : Jwt) (key alg : String) (now : Nat) : Except JwtError JwtClaims :=
  if t.key = key ∧ t.alg = alg then
    if t.claims.exp < now then .error .expired else .ok t.claims
  else .error .signatureInvalid

/-- `service/mock_token_service.py` `create_access_token`: copies the data
dict, sets `exp` to now plus the given delta (seconds) or the default
access-token lifetime, and signs with `SECRET_KEY`/`ALGORITHM`. -/
def create_access_token (data : JwtData) (expires_delta : Option Nat) (now : Nat) : Jwt :=
  let expire := now + expires_delta.getD (ACCESS_TOKEN_EXPIRE_MINUTES * 60)
  jwtEncode ⟨data.sub, data.scopes, expire⟩ SECRET_KEY ALGORITHM

/-- `service/mock_token_service.py` `create_refresh_token`: identical to
`create_access_token` except for the default lifetime. -/
def create_refresh_token (data : JwtData) (expires_delta : Option Nat) (now : Nat) : Jwt :=
  let expire := now + expires_delta.getD (REFRESH_TOKEN_EXPIRE_MINUTES * 60)
  jwtEncode ⟨data.sub, data.scopes, expire⟩ SECRET_KEY ALGORITHM

/-- `service/mock_token_service.py` `create_service_access_token`: same
key and algorithm as the user-token creators. -/
def create_service_access_token (data : JwtData) (expires_delta : Option Nat) (now : Nat) : Jwt :=
  let expire := now + expires_delta.getD (SERVICE_ACCESS_TOKEN_EXPIRE_MINUTES * 60)
  jwtEncode ⟨data.sub, data.scopes, expire⟩ SECRET_KEY ALGORITHM

/-- `service/qq_oauth_service.py` `create_internal_qq_access_token`. -/
def create_internal_qq_access_token (data : JwtData) (expires_delta : Option Nat) (now : Nat) : Jwt :=
  let expire := now + expires_delta.getD (QQ_ACCESS_TOKEN_EXPIRE_MINUTES * 60)
  jwtEncode ⟨data.sub, data.scopes, expire⟩ QQ_JWT_SECRET_KEY QQ_JWT_ALGORITHM

/-- `service/qq_oauth_service.py` `create_internal_qq_refresh_token`. -/
def create_internal_qq_refresh_token (data : JwtData) (expires_delta : Option Nat) (now : Nat) : Jwt :=
  let expire := now + expires_delta.getD (QQ_REFRESH_TOKEN_EXPIRE_DAYS * 24 * 60 * 60)
  jwtEncode ⟨data.sub, data.scopes, expire⟩ QQ_JWT_SECRET_KEY QQ_JWT_ALGORITHM

/-- A FastAPI `HTTPException` carrying an HTTP status code and detail. -/
structure HTTPException where
  status_code : Nat
  detail : String
deriving DecidableEq

/-- The local user record stored in `fake_users_db`, after the in-repo
`GithubUser` pydantic model: `username` is a required field (its pydantic
validation is modelled inside `add_or_update_user`), the remaining
profile fields are optional. -/
structure GithubUser where
  username : String
  github_id : Int
  name : Option String
  email : Option String
  avatar_url : Option String
  disabled : Bool
deriving DecidableEq

/-- The GitHub profile dict consumed by `add_or_update_user`; a key absent
from the dict and a key mapped to `None` both appear as `none`. -/
structure UserData where
  id : Option Int
  login : Option String
  name : Option String
  email : Option String
  avatar_url : Option String
deriving DecidableEq

/-- `fake_users_db`: a Python dict keyed by github id. -/
abbrev Db := List (Int × GithubUser)

/-- The local QQ user record from `model/qq_models.py` (`QQUser`). Note it
carries no `disabled` field. -/
structure QQUser where
  openid : String
  nickname : Option String
  avatar_url : Option String
deriving DecidableEq

/-- The QQ profile payload from `model/qq_models.py` (`QQUserInfo`). -/
structure QQUserInfo where
  ret : Int
  msg : String
  nickname : Option String
  figureurl_qq_1 : Option String
  figureurl_qq_2 : Option String
  gender : Option String
deriving DecidableEq

/-- `qq_user_db`: a Python dict keyed by openid. -/
abbrev QDb := List (String × QQUser)

/-- Python `x or y` on optional strings: the first operand when truthy
(present and nonempty), otherwise the second. -/
def pyOr (a b : Option String) : Option String :=
  match a with
  | some s => if s = "" then b else some s
  | none => b

/-- Digit-list accumulator for `pyInt`. -/
def digitsToNat (acc : Nat) : List Char → Option Nat
  | [] => some acc
  | c :: rest =>
    if c.isDigit then digitsToNat (acc * 10 + (c.toNat - 48)) rest else none

/-- Python `int(s)` on the plain decimal strings arising as `sub` values
(an optional leading minus sign followed by digits); anything else raises
`ValueError`, modelled as `none`. -/
def pyInt (s : String) : Option Int :=
  match s.data with
  | [] => none
  | '-' :: rest =>
    match rest with
    | [] => none
    | _ => (digitsToNat 0 rest).map (fun n => -(n : Int))
  | l => (digitsToNat 0 l).map (fun n => (n : Int))

/-- `service/mock_user_service.py` `get_user_by_github_id`: scans
`db.values()` in insertion order for the first user with this github id. -/
def get_user_by_github_id (db : Db) (github_id : Int) : Option GithubUser :=
  match db with
  | [] => none
  | (_, u) :: rest =>
    if u.github_id = github_id then some u else get_user_by_github_id rest github_id

/-- `service/mock_user_service.py` `add_or_update_user`: rejects a falsy
`id` (absent, `None`, or `0`) with `ValueError`; then looks the existing
user up and constructs the pydantic record — the required `username`
field makes that construction raise a `ValidationError` when the profile
carries no `login` (absent or `None`) — preserving the `disabled` flag of
an existing user with this github id (defaulting to `False`), and stores
the record under key `github_id`. On either error the database is
returned unchanged (the exception propagates before any write). -/
def add_or_update_user (db : Db) (user_data : UserData) :
    Except String GithubUser × Db :=
  match user_data.id with
  | none => (.error "GitHub user data must contain \x27id\x27", db)
  | some github_id =>
    if github_id = 0 then (.error "GitHub user data must contain \x27id\x27", db)
    else
      let existing_user := get_user_by_github_id db github_id
      match user_data.login with
      | none => (.error "ValidationError: username is required", db)
      | some username =>
        let user_info : GithubUser :=
          { username := username
            github_id := github_id
            name := user_data.name
            email := user_data.email
            avatar_url := user_data.avatar_url
            disabled := match existing_user with
              | some u => u.disabled
              | none => false }
        (.ok user_info, dictSet db github_id user_info)

/-- `service/qq_oauth_service.py` `get_qq_user_by_openid`:
`qq_user_db.get(openid)`. -/
def get_qq_user_by_openid (db : QDb) (openid : String) : Option QQUser :=
  dictGet db openid

/-- `service/qq_oauth_service.py` `get_or_create_qq_user`: if the openid
is already a key, mutates the nickname and avatar url of that record in
otherwise creates and stores a fresh record under the openid. -/
def get_or_create_qq_user (db : QDb) (openid : String) (user_info : QQUserInfo) :
    QQUser × QDb :=
  match dictGet db openid with
  | some u =>
    let u' : QQUser :=
      { u with
        nickname := user_info.nickname
        avatar_url := pyOr user_info.figureurl_qq_2 user_info.figureurl_qq_1 }
    (u', dictSet db openid u')
  | none =>
    let u : QQUser :=
      { openid := openid
        nickname := user_info.nickname
        avatar_url := pyOr user_info.figureurl_qq_2 user_info.figureurl_qq_1 }
    (u, dictSet db openid u)

/-- The `Token` response model of the GitHub flow: the minted JWTs. -/
structure Token where
  access_token : Jwt
  refresh_token : Option Jwt
  token_type : String
deriving DecidableEq

/-- The `QQToken` response model of the QQ flow. -/
structure QQToken where
  access_token : Jwt
  refresh_token : Option Jwt
  token_type : String
deriving DecidableEq

/-- The `ServiceToken` response model of the client-credentials flow. -/
structure ServiceToken where
  access_token : Jwt
  token_type : String
deriving DecidableEq

/-- The decoded service principal (`ServiceTokenData`). -/
structure ServiceTokenData where
  client_id : Option String
  scopes : List String
deriving DecidableEq

/-- The state-validation fragment of `code_to_access`
(`core/v1/code_to_access.py` lines 51-58): reads
`session.get("oauth_state")`, raises 403 when the stored state is falsy or
differs from the presented state (leaving the session unchanged, since the
raise precedes the pop), and pops the stored state only on success.
Returns the outcome together with the session entry after the call. -/
def code_to_access_validate_state (session_oauth_state : Option String)
    (state : String) : Except HTTPException Unit × Option String :=
  match session_oauth_state with
  | none => (.error ⟨403, "无效的 state 参数"⟩, none)
  | some expected_state =>
    if expected_state = "" then
      (.error ⟨403, "无效的 state 参数"⟩, some expected_state)
    else if state ≠ expected_state then
      (.error ⟨403, "无效的 state 参数"⟩, some expected_state)
    else (.ok (), none)

/-- The state-validation fragment of `auth_qq_callback`
(`core/v1/qq_auth.py` lines 50-57), identical in logic to the GitHub one
but operating on the `"qq_oauth_state"` session key. -/
def auth_qq_callback_validate_state (session_qq_oauth_state : Option String)
    (state : String) : Except HTTPException Unit × Option String :=
  match session_qq_oauth_state with
  | none => (.error ⟨403, "无效的 state 参数"⟩, none)
  | some expected_state =>
    if expected_state = "" then
      (.error ⟨403, "无效的 state 参数"⟩, some expected_state)
    else if state ≠ expected_state then
      (.error ⟨403, "无效的 state 参数"⟩, some expected_state)
    else (.ok (), none)

/-- `core/v1/code_to_access.py` `refresh_access_token`: decodes the
presented token with `SECRET_KEY`/`ALGORITHM` (there is no purpose check;
the one in the source is commented out), parses the `sub` as an integer
github id, looks the user up, rejects a missing or disabled user, and
otherwise mints a fresh access token for the same subject. Every failure
is the single 401 credentials exception. -/
def refresh_access_token (db : Db) (refresh_token : Jwt) (now : Nat) :
    Except HTTPException Token :=
  let credentials_exception : HTTPException :=
    ⟨401, "无法验证 Refresh Token"⟩
  match jwtDecode refresh_token SECRET_KEY ALGORITHM now with
  | .error _ => .error credentials_exception
  | .ok payload =>
    match payload.sub with
    | none => .error credentials_exception
    | some github_id_str =>
      match pyInt github_id_str with
      | none => .error credentials_exception
      | some github_id =>
        match get_user_by_github_id db github_id with
        | none => .error credentials_exception
        | some user =>
          if user.disabled then .error credentials_exception
          else
            .ok { access_token :=
                    create_access_token ⟨some (toString user.github_id), none⟩
                      (some (ACCESS_TOKEN_EXPIRE_MINUTES * 60)) now
                  refresh_token := none
                  token_type := "bearer" }

/-- `core/v1/qq_auth.py` `refresh_qq_token`: decodes with the QQ key and
algorithm, rejects a missing `sub` or an openid with no local user (the
disabled check is commented out in the source, and `QQUser` has no
disabled field), and otherwise mints a fresh internal access token. -/
def refresh_qq_token (db : QDb) (refresh_token : Jwt) (now : Nat) :
    Except HTTPException QQToken :=
  let credentials_exception : HTTPException :=
    ⟨401, "无法验证 QQ Refresh Token"⟩
  match jwtDecode refresh_token QQ_JWT_SECRET_KEY QQ_JWT_ALGORITHM now with
  | .error _ => .error credentials_exception
  | .ok payload =>
    match payload.sub with
    | none => .error credentials_exception
    | some openid =>
      match get_qq_user_by_openid db openid with
      | none => .error credentials_exception
      | some user =>
        .ok { access_token :=
                create_internal_qq_access_token ⟨some user.openid, none⟩
                  (some (QQ_ACCESS_TOKEN_EXPIRE_MINUTES * 60)) now
              refresh_token := none
              token_type := "bearer" }

/-- `core/v1/service_auth.py` `login_service_for_access_token`: compares
the presented pair against the registered service credentials, and on
success mints a service token carrying the two hard-coded scopes. -/
def login_service_for_access_token (client_id client_secret : String)
    (now : Nat) : Except HTTPException ServiceToken :=
  if client_id ≠ SERVICE_CLIENT_ID ∨ client_secret ≠ SERVICE_CLIENT_SECRET then
    .error ⟨401, "无效的客户端凭证"⟩
  else
    let scopes := ["read:service_data", "write:service_log"]
    .ok { access_token :=
            create_service_access_token ⟨some client_id, some scopes⟩
              (some (SERVICE_ACCESS_TOKEN_EXPIRE_MINUTES * 60)) now
          token_type := "bearer" }

/-- `core/deps.py` `get_current_service`: decodes with
`SECRET_KEY`/`ALGORITHM`, 401 on codec error or missing `sub`, 403 when
the subject is not the registered service client id, else returns the
principal with the scopes of the token (defaulting to the empty list). -/
def get_current_service (token : Jwt) (now : Nat) :
    Except HTTPException ServiceTokenData :=
  match jwtDecode token SECRET_KEY ALGORITHM now with
  | .error _ => .error ⟨401, "无法验证服务凭证"⟩
  | .ok payload =>
    match payload.sub with
    | none => .error ⟨401, "无法验证服务凭证"⟩
    | some client_id =>
      if client_id ≠ SERVICE_CLIENT_ID then
        .error ⟨403, "未授权的服务客户端"⟩
      else
        .ok { client_id := some client_id, scopes := payload.scopes.getD [] }

/-- C1, counterexample: an access token minted by `create_access_token`
for subject 42, presented to the refresh endpoint while user 42 exists and
is not disabled, is accepted and a fresh access token is minted — the
refresh operation does not fail with the 401 `InvalidRefreshToken`. -/
theorem access_token_accepted_by_refresh_cex :
    refresh_access_token [(42, ⟨"alice", 42, none, none, none, false⟩)]
      (create_access_token ⟨some "42", none⟩ (some 900) 0) 100
      = .ok ⟨create_access_token ⟨some (toString (42 : Int)), none⟩
              (some (ACCESS_TOKEN_EXPIRE_MINUTES * 60)) 100, none, "bearer"⟩ := by
  rfl

/-- C1 (amended): access and refresh tokens are signed with the same key
and algorithm and carry no purpose marker, and the purpose check in
`refresh_access_token` is commented out; hence a token minted by
`create_access_token` is accepted by refresh whenever it is unexpired and
its subject parses to the github id of an existing, non-disabled user. -/
theorem refresh_accepts_access_token (db : Db) (s : String) (gid : Int)
    (u : GithubUser) (delta t0 now : Nat)
    (hs : pyInt s = some gid)
    (hu : get_user_by_github_id db gid = some u)
    (hdis : u.disabled = false)
    (hexp : ¬ (t0 + delta < now)) :
    refresh_access_token db (create_access_token ⟨some s, none⟩ (some delta) t0) now
      = .ok ⟨create_access_token ⟨some (toString u.github_id), none⟩
              (some (ACCESS_TOKEN_EXPIRE_MINUTES * 60)) now, none, "bearer"⟩ := by
  simp [refresh_access_token, create_access_token, jwtEncode, jwtDecode,
    hexp, hs, hu, hdis]

theorem refresh_accepts_access_token_witness :
    refresh_access_token [(42, ⟨"alice", 42, none, none, none, false⟩)]
      (create_access_token ⟨some "42", none⟩ (some 900) 0) 100
      = .ok ⟨create_access_token ⟨some (toString ((42 : Int))), none⟩
              (some (ACCESS_TOKEN_EXPIRE_MINUTES * 60)) 100, none, "bearer"⟩ :=
  refresh_accepts_access_token _ "42" 42 ⟨"alice", 42, none, none, none, false⟩
    900 0 100 (by decide) rfl rfl (by decide)

/-- C2, counterexample: with stored state `"A"` and presented state `"B"`,
validation fails but the stored state is NOT cleared — and a retry with
the correct value `"A"` then succeeds, so validation is not single-use
after a failed attempt, on either the GitHub or the QQ endpoint. -/
theorem state_retained_after_mismatch_cex :
    code_to_access_validate_state (some "A") "B"
      = (.error ⟨403, "无效的 state 参数"⟩, some "A")
    ∧ auth_qq_callback_validate_state (some "A") "B"
      = (.error ⟨403, "无效的 state 参数"⟩, some "A")
    ∧ (code_to_access_validate_state (some "A") "A").1 = .ok ()
    ∧ (auth_qq_callback_validate_state (some "A") "A").1 = .ok () :=
  ⟨rfl, rfl, rfl, rfl⟩

/-- C2 (amended): the stored oauth state is cleared only on the success
path; on a missing-state failure nothing was stored, and on a mismatch
failure the stored state is left in place (the 403 is raised before the
pop), so after a mismatch the same stored state remains available for
another attempt. This holds for both the GitHub and the QQ callback. -/
theorem state_cleared_only_on_success (s p : String) (hne : s ≠ "") :
    (code_to_access_validate_state none p
        = (.error ⟨403, "无效的 state 参数"⟩, none)
      ∧ auth_qq_callback_validate_state none p
        = (.error ⟨403, "无效的 state 参数"⟩, none))
    ∧ (p = s →
        code_to_access_validate_state (some s) p = (.ok (), none)
        ∧ auth_qq_callback_validate_state (some s) p = (.ok (), none))
    ∧ (p ≠ s →
        code_to_access_validate_state (some s) p
          = (.error ⟨403, "无效的 state 参数"⟩, some s)
        ∧ auth_qq_callback_validate_state (some s) p
          = (.error ⟨403, "无效的 state 参数"⟩, some s)) := by
  refine ⟨⟨rfl, rfl⟩, ?_, ?_⟩ <;> intro hp <;>
    simp [code_to_access_validate_state, auth_qq_callback_validate_state, hne, hp]

theorem state_cleared_only_on_success_witness :
    (code_to_access_validate_state (some "A") "B"
      = (.error ⟨403, "无效的 state 参数"⟩, some "A"))
    ∧ (code_to_access_validate_state (some "A") "A" = (.ok (), none)) :=
  ⟨((state_cleared_only_on_success "A" "B" (by decide)).2.2 (by decide)).1,
   ((state_cleared_only_on_success "A" "A" (by decide)).2.1 rfl).1⟩

/-- C3, counterexample: a GitHub-user token verifies successfully under
the verification parameters of the service family (`get_current_service`
decodes with the same `SECRET_KEY`/`ALGORITHM` the user-token creators
sign with), and the service verifier itself rejects it only by the
client-id check with 403, never with a signature failure. -/
theorem user_token_cross_verifies_under_service_params_cex :
    jwtDecode (create_access_token ⟨some "42", none⟩ (some 900) 0)
      SECRET_KEY ALGORITHM 0 = .ok ⟨some "42", none, 900⟩
    ∧ get_current_service (create_access_token ⟨some "42", none⟩ (some 900) 0) 0
      = .error ⟨403, "未授权的服务客户端"⟩ :=
  ⟨rfl, rfl⟩

/-- C3 (amended): under the default configuration, key isolation holds
only between the QQ token family and the other two — tokens of the
GitHub-user and service families never verify under the QQ parameters and
vice versa — while the GitHub-user and service families share
`SECRET_KEY`/`ALGORITHM`, so an unexpired token of either verifies
successfully under the parameters of the other family. -/
theorem key_isolation_only_for_qq_family (data : JwtData) (delta t0 now : Nat)
    (hexp : ¬ (t0 + delta < now)) :
    (jwtDecode (create_access_token data (some delta) t0)
        QQ_JWT_SECRET_KEY QQ_JWT_ALGORITHM now = .error .signatureInvalid)
    ∧ (jwtDecode (create_refresh_token data (some delta) t0)
        QQ_JWT_SECRET_KEY QQ_JWT_ALGORITHM now = .error .signatureInvalid)
    ∧ (jwtDecode (create_service_access_token data (some delta) t0)
        QQ_JWT_SECRET_KEY QQ_JWT_ALGORITHM now = .error .signatureInvalid)
    ∧ (jwtDecode (create_internal_qq_access_token data (some delta) t0)
        SECRET_KEY ALGORITHM now = .error .signatureInvalid)
    ∧ (jwtDecode (create_internal_qq_refresh_token data (some delta) t0)
        SECRET_KEY ALGORITHM now = .error .signatureInvalid)
    ∧ (jwtDecode (create_access_token data (some delta) t0)
        SECRET_KEY ALGORITHM now = .ok ⟨data.sub, data.scopes, t0 + delta⟩)
    ∧ (jwtDecode (create_service_access_token data (some delta) t0)
        SECRET_KEY ALGORITHM now = .ok ⟨data.sub, data.scopes, t0 + delta⟩) := by
  refine ⟨?_, ?_, ?_, ?_, ?_, ?_, ?_⟩
  · simp only [create_access_token, jwtEncode, jwtDecode]
    rw [if_neg (by decide)]
  · simp only [create_refresh_token, jwtEncode, jwtDecode]
    rw [if_neg (by decide)]
  · simp only [create_service_access_token, jwtEncode, jwtDecode]
    rw [if_neg (by decide)]
  · simp only [create_internal_qq_access_token, jwtEncode, jwtDecode]
    rw [if_neg (by decide)]
  · simp only [create_internal_qq_refresh_token, jwtEncode, jwtDecode]
    rw [if_neg (by decide)]
  · simp [create_access_token, jwtEncode, jwtDecode, hexp]
  · simp [create_service_access_token, jwtEncode, jwtDecode, hexp]

theorem key_isolation_only_for_qq_family_witness :
    jwtDecode (create_access_token ⟨some "42", none⟩ (some 900) 0)
      QQ_JWT_SECRET_KEY QQ_JWT_ALGORITHM 0 = .error .signatureInvalid
    ∧ jwtDecode (create_service_access_token ⟨some "42", none⟩ (some 900) 0)
      SECRET_KEY ALGORITHM 0 = .ok ⟨some "42", none, 900⟩ :=
  ⟨(key_isolation_only_for_qq_family ⟨some "42", none⟩ 900 0 0 (by decide)).1,
   (key_isolation_only_for_qq_family ⟨some "42", none⟩ 900 0 0 (by decide)).2.2.2.2.2.2⟩

/-- C4 (confirmed): on both refresh endpoints, a token that decodes
successfully but whose subject has no local user record — or, for the
GitHub endpoint, whose user is disabled — is rejected with the 401
credentials exception and no token is minted. (The QQ `QQUser` record
carries no `disabled` field at all, so the disabled clause is vacuous for
the QQ endpoint.) -/
theorem refresh_rejects_missing_or_disabled_user :
    (∀ (db : Db) (tok : Jwt) (now : Nat) (p : JwtClaims) (s : String) (gid : Int),
        jwtDecode tok SECRET_KEY ALGORITHM now = .ok p →
        p.sub = some s → pyInt s = some gid →
        (get_user_by_github_id db gid = none ∨
          ∃ u, get_user_by_github_id db gid = some u ∧ u.disabled = true) →
        refresh_access_token db tok now = .error ⟨401, "无法验证 Refresh Token"⟩)
    ∧ (∀ (qdb : QDb) (tok : Jwt) (now : Nat) (p : JwtClaims) (s : String),
        jwtDecode tok QQ_JWT_SECRET_KEY QQ_JWT_ALGORITHM now = .ok p →
        p.sub = some s →
        get_qq_user_by_openid qdb s = none →
        refresh_qq_token qdb tok now = .error ⟨401, "无法验证 QQ Refresh Token"⟩) := by
  constructor
  · intro db tok now p s gid hdec hsub hint hu
    rcases hu with h | ⟨u, hu2, hd⟩
    · simp [refresh_access_token, hdec, hsub, hint, h]
    · simp [refresh_access_token, hdec, hsub, hint, hu2, hd]
  · intro qdb tok now p s hdec hsub h
    simp [refresh_qq_token, hdec, hsub, h]

theorem refresh_rejects_missing_or_disabled_user_witness :
    refresh_access_token [] (create_refresh_token ⟨some "7", none⟩ (some 1000) 0) 0
      = .error ⟨401, "无法验证 Refresh Token"⟩
    ∧ refresh_access_token [(9, ⟨"bob", 9, none, none, none, true⟩)]
        (create_refresh_token ⟨some "9", none⟩ (some 1000) 0) 0
      = .error ⟨401, "无法验证 Refresh Token"⟩
    ∧ refresh_qq_token []
        (create_internal_qq_refresh_token ⟨some "OPENID42", none⟩ (some 1000) 0) 0
      = .error ⟨401, "无法验证 QQ Refresh Token"⟩ :=
  ⟨refresh_rejects_missing_or_disabled_user.1 [] _ 0 ⟨some "7", none, 1000⟩
      "7" 7 rfl rfl (by decide) (Or.inl rfl),
   refresh_rejects_missing_or_disabled_user.1 _ _ 0 ⟨some "9", none, 1000⟩
      "9" 9 rfl rfl (by decide)
      (Or.inr ⟨⟨"bob", 9, none, none, none, true⟩, rfl, rfl⟩),
   refresh_rejects_missing_or_disabled_user.2 [] _ 0 ⟨some "OPENID42", none, 1000⟩
      "OPENID42" rfl rfl rfl⟩

/-- C6 (confirmed): a service-token request with a wrong credential pair
fails with 401 and no token is issued; with the registered pair the minted
token, resolved by `get_current_service` before expiry, yields the
registered client id and exactly the two configured default scopes. -/
theorem service_credential_gate_and_scopes (client_id client_secret : String)
    (now t : Nat)
    (hbad : client_id ≠ SERVICE_CLIENT_ID ∨ client_secret ≠ SERVICE_CLIENT_SECRET)
    (hexp : ¬ (now + SERVICE_ACCESS_TOKEN_EXPIRE_MINUTES * 60 < t)) :
    login_service_for_access_token client_id client_secret now
      = .error ⟨401, "无效的客户端凭证"⟩
    ∧ login_service_for_access_token SERVICE_CLIENT_ID SERVICE_CLIENT_SECRET now
      = .ok ⟨create_service_access_token
              ⟨some SERVICE_CLIENT_ID, some ["read:service_data", "write:service_log"]⟩
              (some (SERVICE_ACCESS_TOKEN_EXPIRE_MINUTES * 60)) now, "bearer"⟩
    ∧ get_current_service
        (create_service_access_token
          ⟨some SERVICE_CLIENT_ID, some ["read:service_data", "write:service_log"]⟩
          (some (SERVICE_ACCESS_TOKEN_EXPIRE_MINUTES * 60)) now) t
      = .ok ⟨some SERVICE_CLIENT_ID, ["read:service_data", "write:service_log"]⟩ := by
  refine ⟨?_, ?_, ?_⟩
  · simp [login_service_for_access_token, hbad]
  · simp [login_service_for_access_token]
  · simp [get_current_service, create_service_access_token, jwtEncode, jwtDecode, hexp]

theorem service_credential_gate_and_scopes_witness :
    login_service_for_access_token SERVICE_CLIENT_ID "wrong" 0
      = .error ⟨401, "无效的客户端凭证"⟩
    ∧ get_current_service
        (create_service_access_token
          ⟨some SERVICE_CLIENT_ID, some ["read:service_data", "write:service_log"]⟩
          (some (SERVICE_ACCESS_TOKEN_EXPIRE_MINUTES * 60)) 0) 0
      = .ok ⟨some SERVICE_CLIENT_ID, ["read:service_data", "write:service_log"]⟩ :=
  ⟨(service_credential_gate_and_scopes SERVICE_CLIENT_ID "wrong" 0 0
      (Or.inr (by decide)) (by decide)).1,
   (service_credential_gate_and_scopes SERVICE_CLIENT_ID "wrong" 0 0
      (Or.inr (by decide)) (by decide)).2.2⟩

/-- C7 (confirmed): issuing a token over any data dict with a future
expiry and verifying it with the same signing key and algorithm before
that expiry succeeds and returns exactly the issued claims, for both the
GitHub-user and the QQ token families. -/
theorem token_round_trip (data : JwtData) (delta t0 now : Nat)
    (h : now ≤ t0 + delta) :
    jwtDecode (create_access_token data (some delta) t0) SECRET_KEY ALGORITHM now
      = .ok ⟨data.sub, data.scopes, t0 + delta⟩
    ∧ jwtDecode (create_internal_qq_access_token data (some delta) t0)
        QQ_JWT_SECRET_KEY QQ_JWT_ALGORITHM now
      = .ok ⟨data.sub, data.scopes, t0 + delta⟩ := by
  have h' : ¬ (t0 + delta < now) := Nat.not_lt.mpr h
  constructor <;>
    simp [create_access_token, create_internal_qq_access_token, jwtEncode,
      jwtDecode, h']

theorem token_round_trip_witness :
    jwtDecode (create_access_token ⟨some "42", none⟩ (some 900) 0)
      SECRET_KEY ALGORITHM 900 = .ok ⟨some "42", none, 900⟩ :=
  (token_round_trip ⟨some "42", none⟩ 900 0 900 (by decide)).1

theorem dictGet_dictSet_self {α β : Type} [DecidableEq α]
    (db : List (α × β)) (k : α) (v : β) :
    dictGet (dictSet db k v) k = some v := by
  induction db with
  | nil => simp [dictGet, dictSet]
  | cons kv rest ih =>
    obtain ⟨k0, v0⟩ := kv
    by_cases h : k0 = k
    · simp [dictGet, dictSet, h]
    · simp [dictGet, dictSet, h, ih]

theorem dictGet_dictSet_ne {α β : Type} [DecidableEq α]
    (db : List (α × β)) (k k' : α) (v : β) (h : k' ≠ k) :
    dictGet (dictSet db k v) k' = dictGet db k' := by
  induction db with
  | nil => simp [dictGet, dictSet, Ne.symm h]
  | cons kv rest ih =>
    obtain ⟨k0, v0⟩ := kv
    by_cases h0 : k0 = k
    · subst h0
      simp [dictGet, dictSet, Ne.symm h]
    · simp only [dictSet, if_neg h0, dictGet]
      by_cases h1 : k0 = k'
      · simp [h1]
      · simp [h1, ih]

/-- A database state in which every entry is stored under its own github
id — the invariant of all states reachable from the (empty) initial
`fake_users_db` through `add_or_update_user` calls and out-of-band
`disabled` flips. -/
def WellKeyed (db : Db) : Prop := ∀ kv ∈ db, kv.2.github_id = kv.1

theorem get_user_eq_dictGet (db : Db) (g : Int) (h : WellKeyed db) :
    get_user_by_github_id db g = dictGet db g := by
  induction db with
  | nil => rfl
  | cons kv rest ih =>
    obtain ⟨k, u⟩ := kv
    have hk : u.github_id = k := h (k, u) (List.mem_cons_self _ _)
    have hrest : WellKeyed rest := fun kv hkv => h kv (List.mem_cons_of_mem _ hkv)
    simp only [get_user_by_github_id, dictGet, hk]
    by_cases hkg : k = g
    · simp [hkg]
    · simp [hkg, ih hrest]

theorem wellKeyed_dictSet (db : Db) (k : Int) (v : GithubUser)
    (h : WellKeyed db) (hv : v.github_id = k) : WellKeyed (dictSet db k v) := by
  induction db with
  | nil =>
    intro kv hkv
    simp only [dictSet, List.mem_singleton] at hkv
    subst hkv; exact hv
  | cons kv0 rest ih =>
    obtain ⟨k0, v0⟩ := kv0
    have h0 : v0.github_id = k0 := h (k0, v0) (List.mem_cons_self _ _)
    have hrest : WellKeyed rest := fun kv hkv => h kv (List.mem_cons_of_mem _ hkv)
    intro kv hkv
    by_cases hk : k0 = k
    · rw [dictSet, if_pos hk] at hkv
      rcases List.mem_cons.mp hkv with h1 | h1
      · subst h1; exact hv
      · exact hrest kv h1
    · rw [dictSet, if_neg hk] at hkv
      rcases List.mem_cons.mp hkv with h1 | h1
      · subst h1; exact h0
      · exact ih hrest kv h1

/-- The `disabled` flag the upsert will preserve: that of the first stored
user carrying this github id, defaulting to `false`. -/
def currentDisabled (db : Db) (g : Int) : Bool :=
  match get_user_by_github_id db g with
  | some u => u.disabled
  | none => false

/-- The record `add_or_update_user` builds for profile `d` with login
`uname`, id `g` and preserved disabled flag `b`. -/
def upsertUser (d : UserData) (uname : String) (g : Int) (b : Bool) : GithubUser :=
  ⟨uname, g, d.name, d.email, d.avatar_url, b⟩

theorem add_or_update_user_fst (db : Db) (d : UserData) (g : Int) (uname : String)
    (h1 : d.id = some g) (h2 : g ≠ 0) (hlogin : d.login = some uname) :
    (add_or_update_user db d).1
      = .ok (upsertUser d uname g (currentDisabled db g)) := by
  simp only [add_or_update_user, h1, hlogin]
  rw [if_neg h2]
  rfl

theorem add_or_update_user_snd (db : Db) (d : UserData) (g : Int) (uname : String)
    (h1 : d.id = some g) (h2 : g ≠ 0) (hlogin : d.login = some uname) :
    (add_or_update_user db d).2
      = dictSet db g (upsertUser d uname g (currentDisabled db g)) := by
  simp only [add_or_update_user, h1, hlogin]
  rw [if_neg h2]
  rfl

theorem add_or_update_user_no_login (db : Db) (d : UserData) (g : Int)
    (h1 : d.id = some g) (h2 : g ≠ 0) (hlogin : d.login = none) :
    add_or_update_user db d
      = (.error "ValidationError: username is required", db) := by
  simp only [add_or_update_user, h1, hlogin]
  rw [if_neg h2]

theorem wellKeyed_add_or_update (db : Db) (d : UserData) (h : WellKeyed db) :
    WellKeyed (add_or_update_user db d).2 := by
  cases hid : d.id with
  | none => simpa only [add_or_update_user, hid] using h
  | some g =>
    by_cases hg : g = 0
    · simpa only [add_or_update_user, hid, if_pos hg] using h
    · cases hlogin : d.login with
      | none =>
        rw [add_or_update_user_no_login db d g hid hg hlogin]
        exact h
      | some uname =>
        rw [add_or_update_user_snd db d g uname hid hg hlogin]
        exact wellKeyed_dictSet db g _ h rfl

theorem currentDisabled_add_or_update (db : Db) (d : UserData) (g : Int)
    (uname : String) (h1 : d.id = some g) (h2 : g ≠ 0)
    (hlogin : d.login = some uname) (h : WellKeyed db) :
    currentDisabled (add_or_update_user db d).2 g = currentDisabled db g := by
  have hwk' : WellKeyed (add_or_update_user db d).2 :=
    wellKeyed_add_or_update db d h
  have hget : get_user_by_github_id (add_or_update_user db d).2 g
      = some (upsertUser d uname g (currentDisabled db g)) := by
    rw [get_user_eq_dictGet _ _ hwk', add_or_update_user_snd db d g uname h1 h2 hlogin,
      dictGet_dictSet_self]
  simp [currentDisabled, hget, upsertUser]

/-- `n` repeated upserts of the same profile dict, threading the database
state. -/
def upsertN : Nat → Db → UserData → Db
  | 0, db, _ => db
  | n + 1, db, d => (add_or_update_user (upsertN n db d) d).2

theorem upsertN_invariant (d : UserData) (g : Int) (uname : String)
    (h1 : d.id = some g) (h2 : g ≠ 0) (hlogin : d.login = some uname)
    (db : Db) (hwk : WellKeyed db) :
    ∀ n, WellKeyed (upsertN n db d)
      ∧ currentDisabled (upsertN n db d) g = currentDisabled db g := by
  intro n
  induction n with
  | zero => exact ⟨hwk, rfl⟩
  | succ m ih =>
    refine ⟨wellKeyed_add_or_update _ d ih.1, ?_⟩
    show currentDisabled (add_or_update_user (upsertN m db d) d).2 g = _
    rw [currentDisabled_add_or_update _ d g uname h1 h2 hlogin ih.1, ih.2]

/-- C5 (confirmed): over any well-keyed database, repeated upserts of the
same identity (one carrying a login, as every GitHub profile does — the
required `username` field otherwise raises a `ValidationError` that
returns the database unchanged, stated as the last GitHub conjunct)
always return a record with the same github id, and the stored `disabled`
flag at that id after any positive number of upserts is exactly the
pre-existing one (`false` for a first-time user, and still `true` for a
user disabled out-of-band); likewise `get_or_create_qq_user` returns a
record with a stable openid across repeated calls. -/
theorem upsert_idempotent_and_disabled_sticky (d : UserData) (g : Int)
    (uname : String) (db : Db) (h1 : d.id = some g) (h2 : g ≠ 0)
    (hlogin : d.login = some uname) (hwk : WellKeyed db) :
    (∀ n, ∃ u, (add_or_update_user (upsertN n db d) d).1 = .ok u
      ∧ u.github_id = g)
    ∧ (∀ n, 0 < n → ∃ u, dictGet (upsertN n db d) g = some u
        ∧ u.github_id = g ∧ u.disabled = currentDisabled db g)
    ∧ (get_user_by_github_id db g = none → currentDisabled db g = false)
    ∧ (∀ u0, get_user_by_github_id db g = some u0 →
        currentDisabled db g = u0.disabled)
    ∧ (∀ (db' : Db) (d' : UserData) (g' : Int), d'.id = some g' → g' ≠ 0 →
        d'.login = none →
        add_or_update_user db' d'
          = (.error "ValidationError: username is required", db'))
    ∧ (∀ (qdb : QDb) (openid : String) (info info2 : QQUserInfo),
        ((get_or_create_qq_user ((get_or_create_qq_user qdb openid info).2)
            openid info2).1).openid
          = ((get_or_create_qq_user qdb openid info).1).openid
        ∧ (get_qq_user_by_openid qdb openid = none →
            ((get_or_create_qq_user qdb openid info).1).openid = openid)) := by
  refine ⟨?_, ?_, ?_, ?_, ?_, ?_⟩
  · intro n
    exact ⟨upsertUser d uname g (currentDisabled (upsertN n db d) g),
      add_or_update_user_fst _ d g uname h1 h2 hlogin, rfl⟩
  · intro n hn
    cases n with
    | zero => exact absurd hn (lt_irrefl 0)
    | succ m =>
      have hinv := upsertN_invariant d g uname h1 h2 hlogin db hwk m
      refine ⟨upsertUser d uname g (currentDisabled (upsertN m db d) g), ?_, rfl, ?_⟩
      · show dictGet (add_or_update_user (upsertN m db d) d).2 g = _
        rw [add_or_update_user_snd _ d g uname h1 h2 hlogin, dictGet_dictSet_self]
      · simpa [upsertUser] using hinv.2
  · intro h; simp [currentDisabled, h]
  · intro u0 h; simp [currentDisabled, h]
  · intro db' d' g' hid hg hlogin'
    exact add_or_update_user_no_login db' d' g' hid hg hlogin'
  · intro qdb openid info info2
    constructor
    · cases hq : dictGet qdb openid with
      | none => simp [get_or_create_qq_user, hq, dictGet_dictSet_self]
      | some u => simp [get_or_create_qq_user, hq, dictGet_dictSet_self]
    · intro hq
      rw [get_qq_user_by_openid] at hq
      simp [get_or_create_qq_user, hq]

theorem upsert_idempotent_and_disabled_sticky_witness :
    (∃ u, (add_or_update_user
        (upsertN 2 [((7 : Int), ⟨"old", 7, none, none, none, true⟩)]
          ⟨some 7, some "alice", none, none, none⟩)
        ⟨some 7, some "alice", none, none, none⟩).1 = .ok u
      ∧ u.github_id = 7)
    ∧ (∃ u, dictGet (upsertN 2 [((7 : Int), ⟨"old", 7, none, none, none, true⟩)]
          ⟨some 7, some "alice", none, none, none⟩) 7 = some u
        ∧ u.github_id = 7
        ∧ u.disabled
            = currentDisabled [((7 : Int), ⟨"old", 7, none, none, none, true⟩)] 7) :=
  ⟨(upsert_idempotent_and_disabled_sticky ⟨some 7, some "alice", none, none, none⟩
      7 "alice" [((7 : Int), ⟨"old", 7, none, none, none, true⟩)] rfl (by decide)
      rfl (by simp [WellKeyed])).1 2,
   (upsert_idempotent_and_disabled_sticky ⟨some 7, some "alice", none, none, none⟩
      7 "alice" [((7 : Int), ⟨"old", 7, none, none, none, true⟩)] rfl (by decide)
      rfl (by simp [WellKeyed])).2.1 2 (by decide)⟩

/-- C9 (confirmed): `add_or_update_user` treats a falsy github id (absent
key, `None`, or the integer `0`) identically: it fails with the
`ValueError` and returns the database unchanged, so provider id `0` can
never create or update a local user. -/
theorem falsy_github_id_rejected (db : Db) (d : UserData)
    (h : d.id = none ∨ d.id = some 0) :
    add_or_update_user db d
      = (.error "GitHub user data must contain \x27id\x27", db) := by
  rcases h with h | h <;> simp [add_or_update_user, h]

theorem falsy_github_id_rejected_witness :
    add_or_update_user [] ⟨some 0, some "alice", none, none, none⟩
      = (.error "GitHub user data must contain \x27id\x27", []) :=
  falsy_github_id_rejected [] ⟨some 0, some "alice", none, none, none⟩
    (Or.inr rfl)

/-- C10 (confirmed): an upsert for github id `g` leaves every database
entry under any key other than `g` unchanged (and on the falsy-id error
path the whole database is unchanged); likewise `get_or_create_qq_user`
for openid `o` leaves every QQ store entry other than `o` unchanged. -/
theorem upsert_frame_property :
    (∀ (db : Db) (d : UserData) (g k : Int), d.id = some g → k ≠ g →
        dictGet (add_or_update_user db d).2 k = dictGet db k)
    ∧ (∀ (db : Db) (d : UserData) (k : Int), d.id = none →
        dictGet (add_or_update_user db d).2 k = dictGet db k)
    ∧ (∀ (qdb : QDb) (openid : String) (info : QQUserInfo) (k : String),
        k ≠ openid →
        dictGet (get_or_create_qq_user qdb openid info).2 k = dictGet qdb k) := by
  refine ⟨?_, ?_, ?_⟩
  · intro db d g k hid hk
    by_cases hg : g = 0
    · simp [add_or_update_user, hid, hg]
    · cases hlogin : d.login with
      | none =>
        rw [add_or_update_user_no_login db d g hid hg hlogin]
      | some uname =>
        rw [add_or_update_user_snd db d g uname hid hg hlogin]
        exact dictGet_dictSet_ne db g k _ hk
  · intro db d k hid
    simp [add_or_update_user, hid]
  · intro qdb openid info k hk
    cases hq : dictGet qdb openid with
    | none => simp [get_or_create_qq_user, hq, dictGet_dictSet_ne _ _ _ _ hk]
    | some u => simp [get_or_create_qq_user, hq, dictGet_dictSet_ne _ _ _ _ hk]

theorem upsert_frame_property_witness :
    dictGet (add_or_update_user
      [((1 : Int), ⟨"a", 1, none, none, none, false⟩),
       ((2 : Int), ⟨"b", 2, none, none, none, true⟩)]
      ⟨some 2, some "bee", none, none, none⟩).2 1
      = dictGet
        [((1 : Int), ⟨"a", 1, none, none, none, false⟩),
         ((2 : Int), ⟨"b", 2, none, none, none, true⟩)] 1 :=
  upsert_frame_property.1
    [((1 : Int), ⟨"a", 1, none, none, none, false⟩),
     ((2 : Int), ⟨"b", 2, none, none, none, true⟩)]
    ⟨some 2, some "bee", none, none, none⟩ 2 1 rfl (by decide)

/-- Python regex whitespace class `\s` (space, tab, newline, carriage
return, vertical tab, form feed). -/
def isReWs (c : Char) : Bool :=
  c == ' ' || c == '\t' || c == '\n' || c == '\r' || c == '\x0b' || c == '\x0c'

def reSkipWs : List Char → List Char
  | [] => []
  | c :: rest => if isReWs c then reSkipWs rest else c :: rest

def matchLiteral : List Char → List Char → Option (List Char)
  | [], s => some s
  | _ :: _, [] => none
  | p :: ps, c :: cs => if p == c then matchLiteral ps cs else none

/-- Whether the remainder completes the regex tail after the closing
brace of the group: optional whitespace then a closing parenthesis (the
trailing semicolon is optional and does not affect matching). -/
def reCloseFollows (s : List Char) : Bool :=
  match reSkipWs s with
  | ')' :: _ => true
  | _ => false

/-- The lazy part of the group: scans for the earliest closing brace
whose remainder completes the pattern; the dot of the lazy run never
matches a newline. Returns the characters between the braces. -/
def lazyGroupClose (acc : List Char) : List Char → Option (List Char)
  | [] => none
  | c :: rest =>
    if c == '}' && reCloseFollows rest then some acc
    else if c == '\n' then none
    else lazyGroupClose (acc ++ [c]) rest

/-- A match attempt of the callback-envelope regex anchored at the start
of `s`: the literal, optional whitespace, then the braced group. Returns
the capture group (braces included). -/
def callbackAt (s : List Char) : Option (List Char) :=
  match matchLiteral "callback(".data s with
  | none => none
  | some rest =>
    match reSkipWs rest with
    | '{' :: rest2 => (lazyGroupClose [] rest2).map (fun inner => '{' :: (inner ++ ['}']))
    | _ => none

/-- Model of the `re.search` call in the source over the callback-envelope pattern:
the leftmost start position admitting a match wins. -/
def searchCallback : List Char → Option (List Char)
  | [] => none
  | c :: rest =>
    match callbackAt (c :: rest) with
    | some g => some g
    | none => searchCallback rest

/-- A parsed JSON value; numbers keep their raw numeral text. -/
inductive Json where
  | null
  | bool (b : Bool)
  | num (raw : String)
  | str (s : String)
  | arr (items : List Json)
  | obj (fields : List (String × Json))

/-- JSON whitespace (space, tab, newline, carriage return). -/
def isJsonWs (c : Char) : Bool :=
  c == ' ' || c == '\t' || c == '\n' || c == '\r'

def jsonSkipWs : List Char → List Char
  | [] => []
  | c :: rest => if isJsonWs c then jsonSkipWs rest else c :: rest

def hexDigitVal (c : Char) : Option Nat :=
  if '0' ≤ c ∧ c ≤ '9' then some (c.toNat - 48)
  else if 'a' ≤ c ∧ c ≤ 'f' then some (c.toNat - 87)
  else if 'A' ≤ c ∧ c ≤ 'F' then some (c.toNat - 55)
  else none

def escapeChar (e : Char) : Option Char :=
  if e == '"' then some '"'
  else if e == '\\' then some '\\'
  else if e == '/' then some '/'
  else if e == 'b' then some '\x08'
  else if e == 'f' then some '\x0c'
  else if e == 'n' then some '\n'
  else if e == 'r' then some '\r'
  else if e == 't' then some '\t'
  else none

/-- The body of a JSON string literal after its opening quote: standard
escapes, a four-hex-digit unicode escape, and no raw control characters
(strict mode). -/
def parseStringBody (acc : List Char) : List Char → Option (String × List Char)
  | [] => none
  | '"' :: rest => some (String.mk acc, rest)
  | '\\' :: rest =>
    match rest with
    | 'u' :: h1 :: h2 :: h3 :: h4 :: rest2 =>
      match hexDigitVal h1, hexDigitVal h2, hexDigitVal h3, hexDigitVal h4 with
      | some a, some b, some c, some d =>
        parseStringBody (acc ++ [Char.ofNat (((a * 16 + b) * 16 + c) * 16 + d)]) rest2
      | _, _, _, _ => none
    | e :: rest2 =>
      match escapeChar e with
      | some c => parseStringBody (acc ++ [c]) rest2
      | none => none
    | [] => none
  | c :: rest =>
    if c.toNat < 32 then none else parseStringBody (acc ++ [c]) rest

/-- The optional exponent tail of a JSON numeral; when malformed the
exponent is not consumed and the numeral ends before it. -/
def numExp (acc : List Char) (e : Char) (r : List Char) (orig : List Char) :
    String × List Char :=
  let (sgn, r1) :=
    match r with
    | '+' :: rr => ((['+'] : List Char), rr)
    | '-' :: rr => ((['-'] : List Char), rr)
    | _ => (([] : List Char), r)
  match r1.span Char.isDigit with
  | (d :: ds, rest) => (String.mk (acc ++ e :: (sgn ++ d :: ds)), rest)
  | ([], _) => (String.mk acc, orig)

/-- The optional fraction and exponent tails of a JSON numeral. -/
def numTail (acc : List Char) (s : List Char) : String × List Char :=
  let (acc1, s1) :=
    match s with
    | '.' :: r =>
      match r.span Char.isDigit with
      | (d :: ds, rest) => (acc ++ '.' :: d :: ds, rest)
      | ([], _) => (acc, s)
    | _ => (acc, s)
  match s1 with
  | 'e' :: r => numExp acc1 'e' r s1
  | 'E' :: r => numExp acc1 'E' r s1
  | _ => (String.mk acc1, s1)

/-- A JSON numeral: optional minus, then either a lone zero or a nonzero
digit run, then optional fraction and exponent. -/
def parseNumber (s : List Char) : Option (String × List Char) :=
  let (sign, s1) :=
    match s with
    | '-' :: r => ((['-'] : List Char), r)
    | _ => (([] : List Char), s)
  match s1 with
  | [] => none
  | c :: r =>
    if c == '0' then some (numTail (sign ++ ['0']) r)
    else if c.isDigit then
      let (ds, rest) := r.span Char.isDigit
      some (numTail (sign ++ c :: ds) rest)
    else none

/-- Parser modes: a single value, the items of an array after its opening
bracket, or the fields of an object after its opening brace (duplicate
keys overwrite, as in a Python dict). -/
inductive PMode where
  | value
  | arrayItems (acc : List Json)
  | objectItems (acc : List (String × Json))

/-- Fuelled recursive-descent JSON parser (the fuel only guarantees
termination; `jsonLoads` always supplies enough of it). -/
def parseJ (fuel : Nat) (mode : PMode) (s : List Char) : Option (Json × List Char) :=
  match fuel with
  | 0 => none
  | fuel + 1 =>
    match mode with
    | .value =>
      match jsonSkipWs s with
      | 'n' :: 'u' :: 'l' :: 'l' :: rest => some (.null, rest)
      | 't' :: 'r' :: 'u' :: 'e' :: rest => some (.bool true, rest)
      | 'f' :: 'a' :: 'l' :: 's' :: 'e' :: rest => some (.bool false, rest)
      | '"' :: rest => (parseStringBody [] rest).map (fun p => (.str p.1, p.2))
      | '[' :: rest =>
        match jsonSkipWs rest with
        | ']' :: r => some (.arr [], r)
        | r => parseJ fuel (.arrayItems []) r
      | '{' :: rest =>
        match jsonSkipWs rest with
        | '}' :: r => some (.obj [], r)
        | r => parseJ fuel (.objectItems []) r
      | s' => (parseNumber s').map (fun p => (.num p.1, p.2))
    | .arrayItems acc =>
      match parseJ fuel .value s with
      | none => none
      | some (v, rest) =>
        match jsonSkipWs rest with
        | ',' :: r => parseJ fuel (.arrayItems (acc ++ [v])) r
        | ']' :: r => some (.arr (acc ++ [v]), r)
        | _ => none
    | .objectItems acc =>
      match jsonSkipWs s with
      | '"' :: r0 =>
        match parseStringBody [] r0 with
        | none => none
        | some (key, r1) =>
          match jsonSkipWs r1 with
          | ':' :: r2 =>
            match parseJ fuel .value r2 with
            | none => none
            | some (v, r3) =>
              match jsonSkipWs r3 with
              | ',' :: r4 => parseJ fuel (.objectItems (dictSet acc key v)) r4
              | '}' :: r4 => some (.obj (dictSet acc key v), r4)
              | _ => none
          | _ => none
      | _ => none

/-- Model of Python `json.loads`: parse one value and require only
whitespace to remain. -/
def jsonLoads (s : String) : Option Json :=
  match parseJ (2 * s.length + 4) .value s.data with
  | some (v, rest) => if jsonSkipWs rest = [] then some v else none
  | none => none

/-- Whether a raw JSON numeral denotes zero: every mantissa digit is 0. -/
def jsonNumIsZero (raw : String) : Bool :=
  (raw.data.takeWhile (fun c => !(c == 'e' || c == 'E'))).all
    (fun c => c == '0' || c == '-' || c == '.')

/-- Python truthiness of a decoded JSON value. -/
def jsonTruthy : Json → Bool
  | .null => false
  | .bool b => b
  | .num raw => !jsonNumIsZero raw
  | .str s => !(s == "")
  | .arr items => !items.isEmpty
  | .obj fields => !fields.isEmpty

/-- Python `data.get(k)` on a decoded JSON value: a lookup on a dict, and
(modelling the `AttributeError` swallowed by the outer handler) nothing on
any non-dict value. -/
def jsonGetKey (j : Json) (k : String) : Option Json :=
  match j with
  | .obj fields => dictGet fields k
  | _ => none

/-- `service/qq_oauth_service.py` `get_qq_openid`, as a function of the
openid-endpoint response body: searches for the callback envelope and
takes the openid from the enclosed JSON (any parse failure or falsy
openid, including the empty string, yields `None` — the JSON fallback is
NOT attempted once the envelope matched); with no envelope it parses the
whole body as JSON and takes a truthy openid from it; every exception path
is swallowed into `None`. -/
def get_qq_openid (body : String) : Option Json :=
  match searchCallback body.data with
  | some group =>
    match jsonLoads (String.mk group) with
    | none => none
    | some data =>
      match jsonGetKey data "openid" with
      | none => none
      | some openid => if jsonTruthy openid then some openid else none
  | none =>
    match jsonLoads body with
    | none => none
    | some data =>
      match jsonGetKey data "openid" with
      | none => none
      | some openid => if jsonTruthy openid then some openid else none

/-- The openid extraction described by the spec for one JSON text: parse,
look up `openid`, keep it only when truthy. -/
def openidOfJsonText (s : String) : Option Json :=
  (jsonLoads s).bind fun data =>
    (jsonGetKey data "openid").bind fun v =>
      if jsonTruthy v then some v else none

/-- The spec's description of `get_qq_openid`: envelope first, with the
openid extracted from the enclosed JSON; plain-JSON fallback only when the
envelope is absent; `None` in every remaining case. -/
def get_qq_openid_spec (body : String) : Option Json :=
  match searchCallback body.data with
  | some group => openidOfJsonText (String.mk group)
  | none => openidOfJsonText body

/-- C8 (confirmed): for every response body, `get_qq_openid` behaves
exactly as the spec describes — callback-envelope pattern first with the
openid taken from the enclosed JSON, plain-JSON fallback when the envelope
is absent, and `None` (never an exception) in every remaining case. -/
theorem get_qq_openid_matches_spec (body : String) :
    get_qq_openid body = get_qq_openid_spec body := by
  unfold get_qq_openid get_qq_openid_spec openidOfJsonText
  cases searchCallback body.data with
  | some group =>
    cases hl : jsonLoads (String.mk group) with
    | none => simp [hl]
    | some data =>
      cases hg : jsonGetKey data "openid" with
      | none => simp [hl, hg]
      | some v => simp [hl, hg]
  | none =>
    cases hl : jsonLoads body with
    | none => simp [hl]
    | some data =>
      cases hg : jsonGetKey data "openid" with
      | none => simp [hl, hg]
      | some v => simp [hl, hg]

example :
    get_qq_openid "callback( \x7b\"client_id\":\"APPID\",\"openid\":\"MYOPENID\"\x7d );"
      = some (.str "MYOPENID") := rfl

example : get_qq_openid "\x7b\"openid\":\"ABC\"\x7d" = some (.str "ABC") := rfl

example : get_qq_openid "this is not json" = none := rfl

example : get_qq_openid "callback( \x7b\"openid\":\x7d );" = none := rfl

example : get_qq_openid "\x7b\"client_id\":\"A\"\x7d" = none := rfl

end OauthDemo
